import Mathlib

/-!
Shallow embedding of the WSERD bookstore backend's JWT access/refresh-token
lifecycle: the token issuer and digest helpers (src/utils/security.ts), the
auth-gate middleware (src/middlewares/auth.ts) and the login / refresh /
logout route handlers (src/routes/auth.ts), together with the refresh-token
ledger persisted through Prisma (tables `User` and `RefreshToken`).

Time is modelled as milliseconds since the epoch (`Date.now()`); JWT `exp`
claims are in seconds, as produced by the `jsonwebtoken` library.  HTTP
handlers are modelled from the point where the zod body validation has
succeeded; error responses are modelled by their HTTP status and stable
machine-readable `code` (the `timestamp`, `path`, localized `message` and
`details` fields of the JSON body are response formatting and carry no
further branching information relevant here, except that distinct branches
are pinned structurally in the theorems where a claim distinguishes them).
-/

namespace WSERD

/-- A row of the Prisma `User` table, restricted to the columns the auth
slice reads.  `role` and `status` are `VARCHAR` columns ("USER"/"ADMIN",
"ACTIVE"/"INACTIVE"). -/
structure User where
  id : Nat
  email : String
  passwordHash : String
  name : String
  role : String
  status : String
deriving DecidableEq, Repr

/-- The `sub` claim of a JWT payload as seen by `Number(payload.sub)`:
a number, a string, or absent (`undefined`). -/
inductive SubClaim
  | num (n : Nat)
  | str (s : String)
  | absent
deriving DecidableEq, Repr

/-- JavaScript `Number()` applied to a `sub` claim; `none` models `NaN`
(`Number(undefined)` is `NaN`, `Number("")` is `0`, a decimal digit string
converts to its value, any other string is `NaN`). -/
def numOfSub : SubClaim → Option Nat
  | .num n => some n
  | .str s =>
      if s.data.all Char.isDigit then
        some (s.data.foldl (fun a c => a * 10 + (c.toNat - 48)) 0)
      else none
  | .absent => none

/-- A decoded JWT payload (`RefreshJwtPayload` in src/routes/auth.ts). -/
structure Payload where
  sub : SubClaim
  role : Option String
  type : Option String
  jti : Option Nat
  exp : Option Nat
deriving DecidableEq, Repr

/-- A presented JWT: either a well-formed token signed with some secret, or
a malformed string on which `jwt.decode` returns `null` and `jwt.verify`
throws a `JsonWebTokenError`. -/
inductive RawToken
  | signed (payload : Payload) (secret : String)
  | malformed (s : String)
deriving DecidableEq, Repr

/-- Outcome of `jwt.verify(token, secret)`: the decoded payload, a
`TokenExpiredError`, or any other verification error. -/
inductive VerifyResult
  | ok (p : Payload)
  | tokenExpired
  | invalid
deriving DecidableEq, Repr

/-- Model of `jwt.verify`: the signature is checked against the secret first; a token
signed with the right secret whose `exp` claim (seconds) is at or before the
current clock second throws `TokenExpiredError`; a token without an `exp`
claim never expires. -/
def jwtVerify (tok : RawToken) (secret : String) (nowMs : Nat) : VerifyResult :=
  match tok with
  | .malformed _ => .invalid
  | .signed p s =>
      if s = secret then
        match p.exp with
        | some e => if e ≤ nowMs / 1000 then .tokenExpired else .ok p
        | none => .ok p
      else .invalid

/-- Model of `jwt.decode`: reads the payload without verifying the signature. -/
def jwtDecode : RawToken → Option Payload
  | .signed p _ => some p
  | .malformed _ => none

/-- Default access-token lifetime: `JWT_ACCESS_EXPIRES_IN ?? '15m'`, in
seconds. -/
def ACCESS_EXPIRES_IN_S : Nat := 15 * 60

/-- Default refresh-token lifetime: `JWT_REFRESH_EXPIRES_IN ?? '7d'`, in
seconds. -/
def REFRESH_EXPIRES_IN_S : Nat := 7 * 24 * 60 * 60

/-- Module constant JWT_SECRET, computed as the nullish coalescing of the
environment value with the literal 'dev-secret', in
src/utils/security.ts and src/routes/auth.ts: the nullish-coalescing
fallback applies exactly when the environment variable is absent. -/
def jwtSecretNullish (env : Option String) : String :=
  env.getD "dev-secret"

/-- Module constant JWT_SECRET, computed with `||` from the environment
value and the literal 'dev-secret', in
src/middlewares/auth.ts: `||` also replaces a present-but-empty value. -/
def jwtSecretFalsy (env : Option String) : String :=
  match env with
  | none => "dev-secret"
  | some s => if s = "" then "dev-secret" else s

/-- Source function signAccessToken from src/utils/security.ts:
payload `{sub, role, type: 'access'}`, `jsonwebtoken` adds
`exp = floor(now/1000) + lifetime`. -/
def signAccessToken (secret : String) (userId : Nat) (role : String) (nowMs : Nat) : RawToken :=
  .signed
    { sub := .num userId
      role := some role
      type := some "access"
      jti := none
      exp := some (nowMs / 1000 + ACCESS_EXPIRES_IN_S) }
    secret

/-- Source function signRefreshToken from src/utils/security.ts:
payload `{sub, role, type: 'refresh', jti: crypto.randomUUID()}`.  The fresh
UUID is modelled by a nonce drawn from the per-state supply `Db.nextNonce`. -/
def signRefreshToken (secret : String) (userId : Nat) (role : String) (jti : Nat) (nowMs : Nat) : RawToken :=
  .signed
    { sub := .num userId
      role := some role
      type := some "refresh"
      jti := some jti
      exp := some (nowMs / 1000 + REFRESH_EXPIRES_IN_S) }
    secret

/-- The digest type of `hashToken`. -/
abbrev Digest := RawToken

/-- Source function hashToken from src/utils/security.ts: the sha256 hex digest
of the raw token string.  The model relies only on the digest being a
deterministic function of the token that is collision-free, so the digest of
a token is represented by the token value itself. -/
def hashToken (token : RawToken) : Digest := token

/-- Source function getJwtExpirationDate from src/utils/security.ts:
`jwt.decode`, `null` when the payload is unreadable or its `exp` claim is
falsy, otherwise `new Date(exp * 1000)` (milliseconds). -/
def getJwtExpirationDate (token : RawToken) : Option Nat :=
  match jwtDecode token with
  | none => none
  | some p =>
      match p.exp with
      | none => none
      | some e => if e = 0 then none else some (e * 1000)

/-- Modelled from the spec: "password hash verification (bcrypt-equivalent)"
— `bcrypt.compare(plain, hash)` is a library call, not code of this
repository.  The one-way property is abstracted away: a stored credential
verifies exactly the password it was created from, so the stored hash is
represented by that password. -/
def verifyPassword (plain stored : String) : Bool :=
  plain == stored

/-- A row of the Prisma `RefreshToken` table (the token ledger).
`expiresAt` is epoch milliseconds. -/
structure RefreshTokenRow where
  id : Nat
  userId : Nat
  tokenHash : Digest
  userAgent : Option String
  ipAddress : Option String
  expiresAt : Nat
deriving DecidableEq, Repr

/-- The datastore state shared by the auth flows: the `User` and
`RefreshToken` tables, the autoincrement id supply, and the nonce supply
standing in for `crypto.randomUUID()` freshness. -/
structure Db where
  users : List User
  refreshTokens : List RefreshTokenRow
  nextRowId : Nat
  nextNonce : Nat
deriving DecidableEq, Repr

/-- Prisma call finding the unique user with the given id. -/
def findUserById (db : Db) (id : Nat) : Option User :=
  db.users.find? (fun u => u.id == id)

/-- Prisma call finding the unique user with the given email. -/
def findUserByEmail (db : Db) (email : String) : Option User :=
  db.users.find? (fun u => u.email == email)

/-- Prisma call finding the unique ledger row with the given digest. -/
def findRefreshTokenByHash (db : Db) (h : Digest) : Option RefreshTokenRow :=
  db.refreshTokens.find? (fun r => r.tokenHash == h)

/-- Prisma delete and deleteMany on the digest key: every row whose
`tokenHash` matches is removed (at most one exists, by the unique index). -/
def deleteRefreshTokenByHash (db : Db) (h : Digest) : Db :=
  { db with refreshTokens := db.refreshTokens.filter (fun r => !(r.tokenHash == h)) }

/-- Source function persistRefreshToken from
src/routes/auth.ts: digest the token, derive `expiresAt` from the embedded
`exp` claim with a now+7d fallback, insert a row. -/
def persistRefreshToken (db : Db) (userId : Nat) (refreshToken : RawToken)
    (userAgent ipAddress : Option String) (nowMs : Nat) : Db :=
  let tokenHash := hashToken refreshToken
  let expiresAt := (getJwtExpirationDate refreshToken).getD (nowMs + 7 * 24 * 60 * 60 * 1000)
  { db with
      refreshTokens := db.refreshTokens ++
        [{ id := db.nextRowId
           userId := userId
           tokenHash := tokenHash
           userAgent := userAgent
           ipAddress := ipAddress
           expiresAt := expiresAt }]
      nextRowId := db.nextRowId + 1 }

/-- Status and stable machine-readable code of a structured JSON error
response. -/
structure ErrorBody where
  status : Nat
  code : String
deriving DecidableEq, Repr

/-- Outcome of the login and refresh handlers: a 200 response carrying the
token pair and the principal summary, or a structured error. -/
inductive AuthOutcome
  | ok (accessToken refreshToken : RawToken) (user : User)
  | err (e : ErrorBody)
deriving DecidableEq, Repr

/-- HTTP status of an auth outcome. -/
def AuthOutcome.status : AuthOutcome → Nat
  | .ok _ _ _ => 200
  | .err e => e.status

/-- POST /auth/login (src/routes/auth.ts), after the zod validation of
`{email, password}` has succeeded.  No status check is performed: the source
comment says the status check is left to `requireAuth`. -/
def login (secret : String) (db : Db) (email password : String)
    (userAgent ipAddress : Option String) (nowMs : Nat) : AuthOutcome × Db :=
  match findUserByEmail db email with
  | none => (.err ⟨401, "UNAUTHORIZED"⟩, db)
  | some user =>
      if verifyPassword password user.passwordHash then
        let accessToken := signAccessToken secret user.id user.role nowMs
        let refreshToken := signRefreshToken secret user.id user.role db.nextNonce nowMs
        let db1 := persistRefreshToken { db with nextNonce := db.nextNonce + 1 }
          user.id refreshToken userAgent ipAddress nowMs
        (.ok accessToken refreshToken user, db1)
      else (.err ⟨401, "UNAUTHORIZED"⟩, db)

/-- Fault injection for the datastore calls of the refresh handler, one flag
per prisma call site; `true` means that call's promise rejects.  The
`delete*` calls are the ones wrapped in `.catch(() => undefined)` in the
source; the others are only guarded by the handler's outer try/catch. -/
structure Faults where
  lookupRow : Bool
  deleteExpired : Bool
  findUser : Bool
  deleteUserGone : Bool
  deleteRotate : Bool
  createRow : Bool
deriving DecidableEq, Repr

/-- The fault-free datastore. -/
def noFaults : Faults := ⟨false, false, false, false, false, false⟩

/-- POST /auth/refresh (src/routes/auth.ts), after the zod validation of
`{refreshToken}` has succeeded.  A rejected prisma call that is wrapped in
`.catch(() => undefined)` is swallowed and the flow continues with the
ledger unchanged; any other rejected call reaches the outer catch and
produces the 500 INTERNAL_SERVER_ERROR response. -/
def refresh (secret : String) (f : Faults) (db : Db) (refreshToken : RawToken)
    (userAgent ipAddress : Option String) (nowMs : Nat) : AuthOutcome × Db :=
  match jwtVerify refreshToken secret nowMs with
  | .tokenExpired => (.err ⟨401, "TOKEN_EXPIRED"⟩, db)
  | .invalid => (.err ⟨401, "UNAUTHORIZED"⟩, db)
  | .ok payload =>
      if payload.type ≠ some "refresh" then (.err ⟨401, "UNAUTHORIZED"⟩, db)
      else
        match numOfSub payload.sub with
        | none => (.err ⟨401, "UNAUTHORIZED"⟩, db)
        | some 0 => (.err ⟨401, "UNAUTHORIZED"⟩, db)
        | some userId =>
            if f.lookupRow then (.err ⟨500, "INTERNAL_SERVER_ERROR"⟩, db)
            else
              match findRefreshTokenByHash db (hashToken refreshToken) with
              | none => (.err ⟨401, "UNAUTHORIZED"⟩, db)
              | some stored =>
                  if stored.userId ≠ userId then (.err ⟨401, "UNAUTHORIZED"⟩, db)
                  else if stored.expiresAt < nowMs then
                    let db1 := if f.deleteExpired then db
                      else deleteRefreshTokenByHash db (hashToken refreshToken)
                    (.err ⟨401, "TOKEN_EXPIRED"⟩, db1)
                  else if f.findUser then (.err ⟨500, "INTERNAL_SERVER_ERROR"⟩, db)
                  else
                    match findUserById db userId with
                    | none =>
                        let db1 := if f.deleteUserGone then db
                          else deleteRefreshTokenByHash db (hashToken refreshToken)
                        (.err ⟨404, "USER_NOT_FOUND"⟩, db1)
                    | some user =>
                        if user.status ≠ "ACTIVE" then (.err ⟨403, "USER_INACTIVE"⟩, db)
                        else
                          let db1 := if f.deleteRotate then db
                            else deleteRefreshTokenByHash db (hashToken refreshToken)
                          let accessToken := signAccessToken secret user.id user.role nowMs
                          let newRefreshToken :=
                            signRefreshToken secret user.id user.role db1.nextNonce nowMs
                          let db2 := { db1 with nextNonce := db1.nextNonce + 1 }
                          if f.createRow then (.err ⟨500, "INTERNAL_SERVER_ERROR"⟩, db2)
                          else
                            (.ok accessToken newRefreshToken user,
                              persistRefreshToken db2 user.id newRefreshToken
                                userAgent ipAddress nowMs)

/-- Outcome of the logout handler: 200 with `data: null`, or a structured
error. -/
inductive LogoutOutcome
  | ok
  | err (e : ErrorBody)
deriving DecidableEq, Repr

/-- HTTP status of a logout outcome. -/
def LogoutOutcome.status : LogoutOutcome → Nat
  | .ok => 200
  | .err e => e.status

/-- POST /auth/logout (src/routes/auth.ts), after the zod validation of
`{refreshToken}` has succeeded: `jwt.verify` then the `type === 'refresh'`
shape check, then an unconditional `deleteMany` on the digest and a 200. -/
def logout (secret : String) (db : Db) (refreshToken : RawToken) (nowMs : Nat) :
    LogoutOutcome × Db :=
  match jwtVerify refreshToken secret nowMs with
  | .tokenExpired => (.err ⟨401, "TOKEN_EXPIRED"⟩, db)
  | .invalid => (.err ⟨401, "UNAUTHORIZED"⟩, db)
  | .ok payload =>
      if payload.type ≠ some "refresh" then (.err ⟨401, "UNAUTHORIZED"⟩, db)
      else (.ok, deleteRefreshTokenByHash db (hashToken refreshToken))

/-- Character-level model of the JavaScript strings handled by
`extractToken` (the authorization header and the extracted token). -/
abbrev Str := List Char

/-- JavaScript `String.prototype.split(' ')`: splits on every single space;
splitting the empty string yields `[""]`. -/
def splitOnSpace : Str → List Str
  | [] => [[]]
  | c :: cs =>
      match splitOnSpace cs with
      | [] => [[]]
      | p :: ps => if c = ' ' then [] :: p :: ps else (c :: p) :: ps

/-- Inverse of `splitOnSpace`: interleaves a single space between the
parts. -/
def joinSpace : List Str → Str
  | [] => []
  | [p] => p
  | p :: ps => p ++ ' ' :: joinSpace ps

/-- Source function extractToken from src/middlewares/auth.ts: destructure
`auth.split(' ')` into `[type, token]` and require `type === 'Bearer'` and a
truthy `token`.  `none` models an absent header; a present empty header is
also falsy in the source. -/
def extractToken (auth : Option Str) : Option Str :=
  match auth with
  | none => none
  | some a =>
      if a = [] then none
      else
        match splitOnSpace a with
        | [] => none
        | [_] => none
        | ty :: token :: _ =>
            if ty = "Bearer".toList ∧ token ≠ [] then some token else none

/-- The principal context attached as `req.user` by the auth gate. -/
structure AuthUser where
  id : Nat
  email : String
  name : String
  role : String
  status : String
deriving DecidableEq, Repr

/-- Outcome of the `requireAuth` middleware: `next()` with an attached
principal context, or a structured error response. -/
inductive GateOutcome
  | ok (user : AuthUser)
  | err (e : ErrorBody)
deriving DecidableEq, Repr

/-- Source middleware requireAuth from src/middlewares/auth.ts.  Here
`decodeJwt` interprets a
raw token string as the JWT it denotes (serialization is a library concern);
everything after extraction follows the source: verify, `Number(sub)` falsy
check, fresh principal lookup, status gate, context attach. -/
def requireAuth (secret : String) (decodeJwt : Str → RawToken) (db : Db)
    (authHeader : Option Str) (nowMs : Nat) : GateOutcome :=
  match extractToken authHeader with
  | none => .err ⟨401, "UNAUTHORIZED"⟩
  | some tokenStr =>
      match jwtVerify (decodeJwt tokenStr) secret nowMs with
      | .tokenExpired => .err ⟨401, "TOKEN_EXPIRED"⟩
      | .invalid => .err ⟨401, "UNAUTHORIZED"⟩
      | .ok payload =>
          match numOfSub payload.sub with
          | none => .err ⟨401, "UNAUTHORIZED"⟩
          | some 0 => .err ⟨401, "UNAUTHORIZED"⟩
          | some userId =>
              match findUserById db userId with
              | none => .err ⟨404, "USER_NOT_FOUND"⟩
              | some user =>
                  if user.status ≠ "ACTIVE" then .err ⟨403, "USER_INACTIVE"⟩
                  else .ok ⟨user.id, user.email, user.name, user.role, user.status⟩

/-- Fault schedule in which only the rotation delete of the refresh flow
fails. -/
def faultRotate : Faults := ⟨false, false, false, false, true, false⟩

/-- Concrete fixture: an active principal. -/
def sampleUser : User := ⟨1, "user1@example.com", "P@ssw0rd!", "UserOne", "USER", "ACTIVE"⟩

/-- Concrete fixture: the same principal, deactivated. -/
def sampleInactiveUser : User := ⟨1, "user1@example.com", "P@ssw0rd!", "UserOne", "USER", "INACTIVE"⟩

/-- Concrete fixture: a refresh token issued to user 1 at time 0. -/
def sampleRefreshToken : RawToken := signRefreshToken "s" 1 "USER" 0 0

/-- Concrete fixture: the ledger row persisted for `sampleRefreshToken`. -/
def sampleRow : RefreshTokenRow := ⟨1, 1, hashToken sampleRefreshToken, none, none, 604800000⟩

/-- Concrete fixture: datastore holding the active user and their ledger
row. -/
def sampleDb : Db := ⟨[sampleUser], [sampleRow], 2, 1⟩

/-- Concrete fixture: the same datastore with the user deactivated. -/
def sampleInactiveDb : Db := ⟨[sampleInactiveUser], [sampleRow], 2, 1⟩

/-- Concrete fixture: a ledger row for `sampleRefreshToken` that expired at
epoch-millisecond 10. -/
def sampleExpiredRow : RefreshTokenRow := ⟨1, 1, hashToken sampleRefreshToken, none, none, 10⟩

/-- Concrete fixture: datastore holding the active user and the expired
ledger row. -/
def sampleExpiredDb : Db := ⟨[sampleUser], [sampleExpiredRow], 2, 1⟩

/-- Concrete fixture: an access token issued to user 1 at time 0. -/
def sampleAccessToken : RawToken := signAccessToken "s" 1 "USER" 0

theorem find?_append_none {α} (p : α → Bool) (l₁ l₂ : List α)
    (h : ∀ x ∈ l₁, p x = false) : (l₁ ++ l₂).find? p = l₂.find? p := by
  induction l₁ with
  | nil => rfl
  | cons a l ih =>
      have ha := h a (List.mem_cons_self a l)
      simp only [List.cons_append, List.find?, ha]
      exact ih fun x hx => h x (List.mem_cons_of_mem a hx)

theorem filter_all_true {α} (p : α → Bool) (l : List α)
    (h : ∀ x ∈ l, p x = true) : l.filter p = l := by
  induction l with
  | nil => rfl
  | cons a l ih =>
      have ha := h a (List.mem_cons_self a l)
      simp only [List.filter_cons, ha, if_true]
      rw [ih fun x hx => h x (List.mem_cons_of_mem a hx)]

theorem filter_filter_self {α} (p : α → Bool) (l : List α) :
    (l.filter p).filter p = l.filter p := by
  induction l with
  | nil => rfl
  | cons a l ih =>
      by_cases ha : p a = true
      · simp [List.filter_cons, ha, ih]
      · simp [List.filter_cons, ha, ih]

theorem verify_signRefreshToken (secret : String) (uid : Nat) (role : String)
    (j t tNow : Nat) (h : tNow / 1000 < t / 1000 + REFRESH_EXPIRES_IN_S) :
    jwtVerify (signRefreshToken secret uid role j t) secret tNow =
      .ok ⟨.num uid, some role, some "refresh", some j, some (t / 1000 + REFRESH_EXPIRES_IN_S)⟩ := by
  have hlt : ¬ (t / 1000 + REFRESH_EXPIRES_IN_S ≤ tNow / 1000) := by omega
  simp [jwtVerify, signRefreshToken, hlt]

theorem expirationDate_signRefreshToken (secret : String) (uid : Nat) (role : String)
    (j t : Nat) :
    getJwtExpirationDate (signRefreshToken secret uid role j t) =
      some ((t / 1000 + REFRESH_EXPIRES_IN_S) * 1000) := by
  have hne : ¬ (t / 1000 + REFRESH_EXPIRES_IN_S = 0) := by
    unfold REFRESH_EXPIRES_IN_S; omega
  simp [getJwtExpirationDate, signRefreshToken, jwtDecode, hne]

theorem persist_signRefreshToken (db : Db) (uid : Nat) (secret role' : String)
    (uid2 j t : Nat) (ua ip : Option String) (now : Nat) :
    persistRefreshToken db uid2 (signRefreshToken secret uid role' j t) ua ip now =
      { db with
          refreshTokens := db.refreshTokens ++
            [⟨db.nextRowId, uid2, signRefreshToken secret uid role' j t, ua, ip,
              (t / 1000 + REFRESH_EXPIRES_IN_S) * 1000⟩]
          nextRowId := db.nextRowId + 1 } := by
  unfold persistRefreshToken hashToken
  rw [expirationDate_signRefreshToken]
  rfl

theorem login_success (secret : String) (db : Db) (email password : String)
    (ua ip : Option String) (now : Nat) (user : User)
    (hfind : findUserByEmail db email = some user)
    (hpw : verifyPassword password user.passwordHash = true) :
    login secret db email password ua ip now =
      (.ok (signAccessToken secret user.id user.role now)
           (signRefreshToken secret user.id user.role db.nextNonce now) user,
       persistRefreshToken { db with nextNonce := db.nextNonce + 1 } user.id
         (signRefreshToken secret user.id user.role db.nextNonce now) ua ip now) := by
  unfold login
  rw [hfind]
  simp [hpw]

/-- Claim C2: the claim states that a missing JWT_SECRET makes the process
fail at startup.  The code instead falls back to the hard-coded secret
"dev-secret" (`?? 'dev-secret'` in src/utils/security.ts and
src/routes/auth.ts, `|| 'dev-secret'` in src/middlewares/auth.ts) and signs
and verifies tokens with it at runtime; this counterexample evaluates that
behavior with the environment variable absent. -/
theorem C2_counterexample :
    jwtSecretNullish none = "dev-secret" ∧
    jwtSecretFalsy none = "dev-secret" ∧
    jwtVerify (signAccessToken (jwtSecretNullish none) 1 "USER" 0)
        (jwtSecretNullish none) 0 =
      .ok ⟨.num 1, some "USER", some "access", none, some 900⟩ := by
  refine ⟨rfl, rfl, ?_⟩
  decide

/-- Claim C2 (amended): when the JWT_SECRET configuration value is absent,
the process does not fail at startup; every module falls back to the
hard-coded secret "dev-secret" and access tokens signed under the fallback
verify successfully at runtime. -/
theorem C2_amended_fallback_secret (userId : Nat) (role : String) (nowMs : Nat) :
    jwtSecretNullish none = "dev-secret" ∧
    jwtSecretFalsy none = "dev-secret" ∧
    jwtVerify (signAccessToken (jwtSecretNullish none) userId role nowMs)
        (jwtSecretNullish none) nowMs =
      .ok ⟨.num userId, some role, some "access", none,
        some (nowMs / 1000 + ACCESS_EXPIRES_IN_S)⟩ := by
  refine ⟨rfl, rfl, ?_⟩
  have h : ¬ (nowMs / 1000 + ACCESS_EXPIRES_IN_S ≤ nowMs / 1000) := by
    unfold ACCESS_EXPIRES_IN_S; omega
  simp [jwtVerify, signAccessToken, h, jwtSecretNullish]

/-- Claim C8: correct credentials with an INACTIVE principal still log in:
POST /auth/login returns 200, issues the access+refresh pair and persists
the refresh-token ledger row; account status is not consulted at login. -/
theorem C8_login_ignores_inactive_status (secret : String) (db : Db)
    (email password : String) (ua ip : Option String) (now : Nat) (user : User)
    (hfind : findUserByEmail db email = some user)
    (hpw : verifyPassword password user.passwordHash = true)
    (hstatus : user.status = "INACTIVE") :
    (login secret db email password ua ip now).1 =
      .ok (signAccessToken secret user.id user.role now)
          (signRefreshToken secret user.id user.role db.nextNonce now) user ∧
    (login secret db email password ua ip now).2.refreshTokens =
      db.refreshTokens ++
        [⟨db.nextRowId, user.id,
          hashToken (signRefreshToken secret user.id user.role db.nextNonce now), ua, ip,
          (now / 1000 + REFRESH_EXPIRES_IN_S) * 1000⟩] := by
  rw [login_success secret db email password ua ip now user hfind hpw]
  refine ⟨rfl, ?_⟩
  rw [persist_signRefreshToken]
  rfl

/-- Witness for C8: the inactive sample user logs in successfully at time 0
and the ledger row for the fresh refresh token is persisted. -/
theorem C8_witness :
    (login "s" ⟨[sampleInactiveUser], [], 5, 7⟩ "user1@example.com" "P@ssw0rd!"
        none none 0).1 =
      .ok (signAccessToken "s" 1 "USER" 0) (signRefreshToken "s" 1 "USER" 7 0)
        sampleInactiveUser ∧
    (login "s" ⟨[sampleInactiveUser], [], 5, 7⟩ "user1@example.com" "P@ssw0rd!"
        none none 0).2.refreshTokens =
      [⟨5, 1, hashToken (signRefreshToken "s" 1 "USER" 7 0), none, none, 604800000⟩] := by
  have h := C8_login_ignores_inactive_status "s" ⟨[sampleInactiveUser], [], 5, 7⟩
    "user1@example.com" "P@ssw0rd!" none none 0 sampleInactiveUser
    (by decide) (by decide) (by decide)
  exact ⟨h.1, h.2⟩

theorem refresh_verify_expired (secret : String) (f : Faults) (db : Db) (tok : RawToken)
    (ua ip : Option String) (now : Nat)
    (h : jwtVerify tok secret now = .tokenExpired) :
    refresh secret f db tok ua ip now = (.err ⟨401, "TOKEN_EXPIRED"⟩, db) := by
  unfold refresh
  rw [h]

theorem refresh_lookup_miss (secret : String) (f : Faults) (db : Db) (tok : RawToken)
    (ua ip : Option String) (now : Nat) (p : Payload) (n : Nat)
    (hver : jwtVerify tok secret now = .ok p)
    (htype : p.type = some "refresh")
    (hsub : numOfSub p.sub = some (n + 1))
    (hlf : f.lookupRow = false)
    (hrow : findRefreshTokenByHash db (hashToken tok) = none) :
    refresh secret f db tok ua ip now = (.err ⟨401, "UNAUTHORIZED"⟩, db) := by
  unfold refresh
  rw [hver]
  simp [htype, hsub, hlf, hrow]

theorem refresh_row_expired (secret : String) (f : Faults) (db : Db) (tok : RawToken)
    (ua ip : Option String) (now : Nat) (p : Payload) (n : Nat) (stored : RefreshTokenRow)
    (hver : jwtVerify tok secret now = .ok p)
    (htype : p.type = some "refresh")
    (hsub : numOfSub p.sub = some (n + 1))
    (hlf : f.lookupRow = false)
    (hrow : findRefreshTokenByHash db (hashToken tok) = some stored)
    (huid : stored.userId = n + 1)
    (hexp : stored.expiresAt < now) :
    refresh secret f db tok ua ip now =
      (.err ⟨401, "TOKEN_EXPIRED"⟩,
       if f.deleteExpired then db else deleteRefreshTokenByHash db (hashToken tok)) := by
  unfold refresh
  rw [hver]
  simp [htype, hsub, hlf, hrow, huid, hexp]

theorem refresh_inactive (secret : String) (f : Faults) (db : Db) (tok : RawToken)
    (ua ip : Option String) (now : Nat) (p : Payload) (n : Nat)
    (stored : RefreshTokenRow) (user : User)
    (hver : jwtVerify tok secret now = .ok p)
    (htype : p.type = some "refresh")
    (hsub : numOfSub p.sub = some (n + 1))
    (hlf : f.lookupRow = false)
    (hrow : findRefreshTokenByHash db (hashToken tok) = some stored)
    (huid : stored.userId = n + 1)
    (hexp : ¬ stored.expiresAt < now)
    (hff : f.findUser = false)
    (huser : findUserById db (n + 1) = some user)
    (hinact : user.status ≠ "ACTIVE") :
    refresh secret f db tok ua ip now = (.err ⟨403, "USER_INACTIVE"⟩, db) := by
  unfold refresh
  rw [hver]
  simp [htype, hsub, hlf, hrow, huid, hexp, hff, huser, hinact]

theorem refresh_success (secret : String) (f : Faults) (db : Db) (tok : RawToken)
    (ua ip : Option String) (now : Nat) (p : Payload) (n : Nat)
    (stored : RefreshTokenRow) (user : User)
    (hver : jwtVerify tok secret now = .ok p)
    (htype : p.type = some "refresh")
    (hsub : numOfSub p.sub = some (n + 1))
    (hlf : f.lookupRow = false)
    (hrow : findRefreshTokenByHash db (hashToken tok) = some stored)
    (huid : stored.userId = n + 1)
    (hexp : ¬ stored.expiresAt < now)
    (hff : f.findUser = false)
    (huser : findUserById db (n + 1) = some user)
    (hact : user.status = "ACTIVE")
    (hcf : f.createRow = false) :
    refresh secret f db tok ua ip now =
      (let db1 := if f.deleteRotate then db else deleteRefreshTokenByHash db (hashToken tok)
       (.ok (signAccessToken secret user.id user.role now)
            (signRefreshToken secret user.id user.role db1.nextNonce now) user,
        persistRefreshToken { db1 with nextNonce := db1.nextNonce + 1 } user.id
          (signRefreshToken secret user.id user.role db1.nextNonce now) ua ip now)) := by
  unfold refresh
  rw [hver]
  simp [htype, hsub, hlf, hrow, huid, hexp, hff, huser, hact, hcf]

/-- Claim C5: in the refresh flow, when the owning principal exists but is
not ACTIVE, the handler answers 403 USER_INACTIVE and the returned datastore
state is exactly the input state: the ledger row is left intact and no other
ledger state changes on this exit path. -/
theorem C5_refresh_inactive_leaves_state_intact (secret : String) (db : Db)
    (tok : RawToken) (ua ip : Option String) (now : Nat) (p : Payload) (n : Nat)
    (stored : RefreshTokenRow) (user : User)
    (hver : jwtVerify tok secret now = .ok p)
    (htype : p.type = some "refresh")
    (hsub : numOfSub p.sub = some (n + 1))
    (hrow : findRefreshTokenByHash db (hashToken tok) = some stored)
    (huid : stored.userId = n + 1)
    (hexp : ¬ stored.expiresAt < now)
    (huser : findUserById db (n + 1) = some user)
    (hinact : user.status ≠ "ACTIVE") :
    refresh secret noFaults db tok ua ip now = (.err ⟨403, "USER_INACTIVE"⟩, db) :=
  refresh_inactive secret noFaults db tok ua ip now p n stored user
    hver htype hsub rfl hrow huid hexp rfl huser hinact

/-- Witness for C5: the deactivated sample user presents their still-live
refresh token at time 1000; the flow answers 403 and the datastore is
untouched. -/
theorem C5_witness :
    refresh "s" noFaults sampleInactiveDb sampleRefreshToken none none 1000 =
      (.err ⟨403, "USER_INACTIVE"⟩, sampleInactiveDb) :=
  C5_refresh_inactive_leaves_state_intact "s" sampleInactiveDb sampleRefreshToken
    none none 1000 ⟨.num 1, some "USER", some "refresh", some 0, some 604800⟩ 0
    sampleRow sampleInactiveUser (by decide) (by decide) (by decide) (by decide)
    (by decide) (by decide) (by decide) (by decide)

/-- Claim C7: a refresh token whose own JWT expiry has passed is answered
401 TOKEN_EXPIRED by POST /auth/refresh; and when the JWT still verifies but
the ledger row's `expiresAt` has passed (defense in depth), the flow answers
401 TOKEN_EXPIRED and deletes the expired row (lazy cleanup) before
returning the error. -/
theorem C7_refresh_expiry_token_expired :
    (∀ (secret : String) (db : Db) (p : Payload) (ua ip : Option String) (now e : Nat),
        p.exp = some e → e ≤ now / 1000 →
        refresh secret noFaults db (.signed p secret) ua ip now =
          (.err ⟨401, "TOKEN_EXPIRED"⟩, db)) ∧
    (∀ (secret : String) (db : Db) (tok : RawToken) (ua ip : Option String)
        (now : Nat) (p : Payload) (n : Nat) (stored : RefreshTokenRow),
        jwtVerify tok secret now = .ok p →
        p.type = some "refresh" →
        numOfSub p.sub = some (n + 1) →
        findRefreshTokenByHash db (hashToken tok) = some stored →
        stored.userId = n + 1 →
        stored.expiresAt < now →
        refresh secret noFaults db tok ua ip now =
          (.err ⟨401, "TOKEN_EXPIRED"⟩, deleteRefreshTokenByHash db (hashToken tok))) := by
  constructor
  · intro secret db p ua ip now e hpe he
    have hv : jwtVerify (.signed p secret) secret now = .tokenExpired := by
      simp [jwtVerify, hpe, he]
    exact refresh_verify_expired secret noFaults db (.signed p secret) ua ip now hv
  · intro secret db tok ua ip now p n stored hver htype hsub hrow huid hexp
    have h := refresh_row_expired secret noFaults db tok ua ip now p n stored
      hver htype hsub rfl hrow huid hexp
    simpa using h

/-- Witness for C7: an already-expired refresh token is answered
TOKEN_EXPIRED with the ledger untouched, and a live token whose ledger row
expired at millisecond 10 is answered TOKEN_EXPIRED with the row deleted. -/
theorem C7_witness :
    refresh "s" noFaults sampleDb
        (.signed ⟨.num 1, some "USER", some "refresh", none, some 1⟩ "s") none none 5000 =
      (.err ⟨401, "TOKEN_EXPIRED"⟩, sampleDb) ∧
    refresh "s" noFaults sampleExpiredDb sampleRefreshToken none none 1000 =
      (.err ⟨401, "TOKEN_EXPIRED"⟩,
        deleteRefreshTokenByHash sampleExpiredDb (hashToken sampleRefreshToken)) :=
  ⟨C7_refresh_expiry_token_expired.1 "s" sampleDb
      ⟨.num 1, some "USER", some "refresh", none, some 1⟩ none none 5000 1 rfl (by decide),
   C7_refresh_expiry_token_expired.2 "s" sampleExpiredDb sampleRefreshToken none none 1000
      ⟨.num 1, some "USER", some "refresh", some 0, some 604800⟩ 0 sampleExpiredRow
      (by decide) (by decide) (by decide) (by decide) (by decide) (by decide)⟩

/-- Claim C9: a cryptographically valid token whose `sub` claim converts to
the number 0 is rejected with 401 by both the auth gate and the refresh
flow, because `Number(payload.sub)` being falsy — which includes the valid
number 0 — is treated as an absent subject. -/
theorem C9_zero_subject_rejected :
    (∀ (secret : String) (decodeJwt : Str → RawToken) (db : Db) (hdr : Option Str)
        (ts : Str) (p : Payload) (now : Nat),
        extractToken hdr = some ts →
        jwtVerify (decodeJwt ts) secret now = .ok p →
        numOfSub p.sub = some 0 →
        requireAuth secret decodeJwt db hdr now = .err ⟨401, "UNAUTHORIZED"⟩) ∧
    (∀ (secret : String) (db : Db) (tok : RawToken) (ua ip : Option String)
        (now : Nat) (p : Payload),
        jwtVerify tok secret now = .ok p →
        p.type = some "refresh" →
        numOfSub p.sub = some 0 →
        refresh secret noFaults db tok ua ip now = (.err ⟨401, "UNAUTHORIZED"⟩, db)) := by
  constructor
  · intro secret decodeJwt db hdr ts p now hex hver hsub
    unfold requireAuth
    rw [hex]
    simp [hver, hsub]
  · intro secret db tok ua ip now p hver htype hsub
    unfold refresh
    rw [hver]
    simp [htype, hsub]

/-- Witness for C9: a correctly signed token with `sub = 0` (and its string
twin `sub = "0"`) is turned away by the gate and by the refresh flow. -/
theorem C9_witness :
    requireAuth "s" (fun _ => .signed ⟨.num 0, some "USER", some "access", none, some 100⟩ "s")
        sampleDb (some ("Bearer x".toList)) 0 = .err ⟨401, "UNAUTHORIZED"⟩ ∧
    refresh "s" noFaults sampleDb
        (.signed ⟨.str "0", some "USER", some "refresh", none, some 100⟩ "s") none none 0 =
      (.err ⟨401, "UNAUTHORIZED"⟩, sampleDb) :=
  ⟨C9_zero_subject_rejected.1 "s"
      (fun _ => .signed ⟨.num 0, some "USER", some "access", none, some 100⟩ "s")
      sampleDb (some ("Bearer x".toList)) ("x".toList)
      ⟨.num 0, some "USER", some "access", none, some 100⟩ 0
      (by decide) (by decide) (by decide),
   C9_zero_subject_rejected.2 "s" sampleDb
      (.signed ⟨.str "0", some "USER", some "refresh", none, some 100⟩ "s") none none 0
      ⟨.str "0", some "USER", some "refresh", none, some 100⟩
      (by decide) (by decide) (by decide)⟩

/-- Claim C4: with a cryptographically valid, unexpired access token, the
auth gate admits the request while the owning principal is ACTIVE, and the
very next request with the same token is answered 403 USER_INACTIVE once the
principal's status is no longer ACTIVE: the principal is looked up fresh in
the datastore passed to each request, and the outcome depends only on that
current state, never on a cached one. -/
theorem C4_inactive_principal_forbidden (secret : String) (decodeJwt : Str → RawToken)
    (dbA dbI : Db) (hdr : Option Str) (ts : Str) (p : Payload) (n : Nat)
    (uA uI : User) (nowA nowI : Nat)
    (hex : extractToken hdr = some ts)
    (hverA : jwtVerify (decodeJwt ts) secret nowA = .ok p)
    (hverI : jwtVerify (decodeJwt ts) secret nowI = .ok p)
    (hsub : numOfSub p.sub = some (n + 1))
    (hA : findUserById dbA (n + 1) = some uA)
    (hAact : uA.status = "ACTIVE")
    (hI : findUserById dbI (n + 1) = some uI)
    (hIinact : uI.status ≠ "ACTIVE") :
    requireAuth secret decodeJwt dbA hdr nowA =
      .ok ⟨uA.id, uA.email, uA.name, uA.role, uA.status⟩ ∧
    requireAuth secret decodeJwt dbI hdr nowI = .err ⟨403, "USER_INACTIVE"⟩ := by
  constructor
  · unfold requireAuth
    rw [hex]
    simp [hverA, hsub, hA, hAact]
  · unfold requireAuth
    rw [hex]
    simp [hverI, hsub, hI, hIinact]

/-- Witness for C4: the same live access token is admitted against the
datastore where user 1 is ACTIVE and answered 403 against the datastore
where user 1 is INACTIVE. -/
theorem C4_witness :
    requireAuth "s" (fun _ => sampleAccessToken) sampleDb (some ("Bearer x".toList)) 0 =
      .ok ⟨1, "user1@example.com", "UserOne", "USER", "ACTIVE"⟩ ∧
    requireAuth "s" (fun _ => sampleAccessToken) sampleInactiveDb
        (some ("Bearer x".toList)) 0 = .err ⟨403, "USER_INACTIVE"⟩ :=
  C4_inactive_principal_forbidden "s" (fun _ => sampleAccessToken)
    sampleDb sampleInactiveDb (some ("Bearer x".toList)) ("x".toList)
    ⟨.num 1, some "USER", some "access", none, some 900⟩ 0
    sampleUser sampleInactiveUser 0 0
    (by decide) (by decide) (by decide) (by decide) (by decide) (by decide)
    (by decide) (by decide)

/-- Claim C6: logout is idempotent.  A token that passes `jwt.verify` and
the refresh-type check at both call times yields 200 on both calls, the
second call changing nothing (its `deleteMany` matches no row); a token
failing the verification (bad signature, expired, or wrong type claim)
yields 401 on every call, with the datastore untouched. -/
theorem C6_logout_idempotent :
    (∀ (secret : String) (db : Db) (tok : RawToken) (t1 t2 : Nat) (p : Payload),
        jwtVerify tok secret t1 = .ok p →
        jwtVerify tok secret t2 = .ok p →
        p.type = some "refresh" →
        (logout secret db tok t1).1 = .ok ∧
        (logout secret (logout secret db tok t1).2 tok t2).1 = .ok ∧
        (logout secret (logout secret db tok t1).2 tok t2).2 =
          (logout secret db tok t1).2) ∧
    (∀ (secret : String) (db : Db) (tok : RawToken) (now : Nat),
        (∀ p, jwtVerify tok secret now = .ok p → p.type ≠ some "refresh") →
        (logout secret db tok now).1.status = 401 ∧ (logout secret db tok now).2 = db) := by
  constructor
  · intro secret db tok t1 t2 p hv1 hv2 htype
    have h1 : logout secret db tok t1 = (.ok, deleteRefreshTokenByHash db (hashToken tok)) := by
      unfold logout
      rw [hv1]
      simp [htype]
    have h2 : logout secret (deleteRefreshTokenByHash db (hashToken tok)) tok t2 =
        (.ok, deleteRefreshTokenByHash
          (deleteRefreshTokenByHash db (hashToken tok)) (hashToken tok)) := by
      unfold logout
      rw [hv2]
      simp [htype]
    have h3 : deleteRefreshTokenByHash
        (deleteRefreshTokenByHash db (hashToken tok)) (hashToken tok) =
        deleteRefreshTokenByHash db (hashToken tok) := by
      unfold deleteRefreshTokenByHash
      simp [filter_filter_self]
    rw [h1]
    exact ⟨rfl, by rw [h2, h3], by rw [h2, h3]⟩
  · intro secret db tok now hbad
    unfold logout
    cases hv : jwtVerify tok secret now with
    | tokenExpired => exact ⟨rfl, rfl⟩
    | invalid => exact ⟨rfl, rfl⟩
    | ok p =>
        have hne := hbad p hv
        simp [hne, LogoutOutcome.status]

/-- Witness for C6: two logouts with the live sample refresh token both
answer 200 and the second changes nothing; a wrong-type (access) token is
answered 401 with the datastore untouched. -/
theorem C6_witness :
    ((logout "s" sampleDb sampleRefreshToken 1000).1 = .ok ∧
      (logout "s" (logout "s" sampleDb sampleRefreshToken 1000).2
          sampleRefreshToken 2000).1 = .ok ∧
      (logout "s" (logout "s" sampleDb sampleRefreshToken 1000).2
          sampleRefreshToken 2000).2 = (logout "s" sampleDb sampleRefreshToken 1000).2) ∧
    ((logout "s" sampleDb sampleAccessToken 1000).1.status = 401 ∧
      (logout "s" sampleDb sampleAccessToken 1000).2 = sampleDb) :=
  ⟨C6_logout_idempotent.1 "s" sampleDb sampleRefreshToken 1000 2000
      ⟨.num 1, some "USER", some "refresh", some 0, some 604800⟩
      (by decide) (by decide) (by decide),
   C6_logout_idempotent.2 "s" sampleDb sampleAccessToken 1000
     (fun p hp => by
       have h2 : VerifyResult.ok
           (⟨.num 1, some "USER", some "access", none, some 900⟩ : Payload) = .ok p := hp
       rw [← VerifyResult.ok.inj h2]
       decide)⟩

theorem splitOnSpace_ne_nil (l : Str) : splitOnSpace l ≠ [] := by
  cases l with
  | nil => simp [splitOnSpace]
  | cons c cs =>
      simp only [splitOnSpace]
      cases h : splitOnSpace cs with
      | nil => simp
      | cons p ps => by_cases hc : c = ' ' <;> simp [hc]

theorem joinSpace_cons_cons (p q : Str) (ps : List Str) :
    joinSpace (p :: q :: ps) = p ++ ' ' :: joinSpace (q :: ps) := rfl

theorem joinSpace_splitOnSpace (l : Str) : joinSpace (splitOnSpace l) = l := by
  induction l with
  | nil => rfl
  | cons c cs ih =>
      simp only [splitOnSpace]
      cases h : splitOnSpace cs with
      | nil => exact absurd h (splitOnSpace_ne_nil cs)
      | cons p ps =>
          rw [h] at ih
          show joinSpace (if c = ' ' then [] :: p :: ps else (c :: p) :: ps) = c :: cs
          by_cases hc : c = ' '
          · subst hc
            rw [if_pos rfl, joinSpace_cons_cons, ih, List.nil_append]
          · rw [if_neg hc]
            cases ps with
            | nil =>
                have hp : p = cs := ih
                rw [hp]
                exact rfl
            | cons q qs =>
                rw [joinSpace_cons_cons] at ih
                rw [joinSpace_cons_cons, List.cons_append, ih]

theorem extractToken_some_bearer (a tok : Str)
    (h : extractToken (some a) = some tok) :
    ∃ t : Str, t ≠ [] ∧ a = "Bearer ".toList ++ t := by
  simp only [extractToken] at h
  split at h
  · simp at h
  · split at h
    · simp at h
    · simp at h
    · rename_i ty token rest heq
      split at h
      · rename_i hcond
        have hj := joinSpace_splitOnSpace a
        rw [heq, joinSpace_cons_cons, hcond.1] at hj
        refine ⟨joinSpace (token :: rest), ?_, ?_⟩
        · cases rest with
          | nil => exact hcond.2
          | cons m ms =>
              rw [joinSpace_cons_cons]
              simp
        · rw [← hj]
          have hb : ("Bearer ").toList = ("Bearer").toList ++ [' '] := by decide
          rw [hb, List.append_assoc, List.singleton_append]
      · simp at h

/-- Claim C10: any request whose Authorization header is not exactly the
case-sensitive scheme "Bearer", one space, and a non-empty token — an absent
header, "bearer x", "Bearer" alone, an empty token — is answered 401 by the
auth gate at the extraction step: `extractToken` yields null and the
missing-token response is produced for every secret, token decoder,
datastore and time, i.e. before any signature verification is attempted. -/
theorem C10_malformed_authorization_rejected (hdr : Option Str)
    (hno : ∀ t : Str, t ≠ [] → hdr ≠ some ("Bearer ".toList ++ t))
    (secret : String) (decodeJwt : Str → RawToken) (db : Db) (now : Nat) :
    extractToken hdr = none ∧
    requireAuth secret decodeJwt db hdr now = .err ⟨401, "UNAUTHORIZED"⟩ := by
  have hext : extractToken hdr = none := by
    cases hdr with
    | none => rfl
    | some a =>
        cases hE : extractToken (some a) with
        | none => rfl
        | some tok =>
            obtain ⟨t, ht, rfl⟩ := extractToken_some_bearer a tok hE
            exact absurd rfl (hno t ht)
  refine ⟨hext, ?_⟩
  unfold requireAuth
  rw [hext]

/-- Witness for C10: the lowercase header "bearer x" is rejected with the
missing-token 401 without consulting the verifier. -/
theorem C10_witness :
    extractToken (some ("bearer x".toList)) = none ∧
    requireAuth "s" (fun _ => sampleAccessToken) sampleDb (some ("bearer x".toList)) 0 =
      .err ⟨401, "UNAUTHORIZED"⟩ :=
  C10_malformed_authorization_rejected (some ("bearer x".toList))
    (fun t _ h => by
      have h' := Option.some.inj h
      have hb : (("Bearer ").toList ++ t).head? = some 'B' := rfl
      rw [← h'] at hb
      exact absurd hb (by decide))
    "s" (fun _ => sampleAccessToken) sampleDb 0

/-- Claim C3 counterexample: the claim states that a failed datastore call —
in particular a failed ledger-row delete during refresh — surfaces as a 500
Internal error.  With the rotation delete rejecting (its `.catch(() =>
undefined)` swallows the failure), the refresh flow nonetheless answers 200
and the old ledger row is still present afterwards. -/
theorem C3_counterexample :
    (refresh "s" faultRotate sampleDb sampleRefreshToken none none 1000).1.status = 200 ∧
    sampleRow ∈
      (refresh "s" faultRotate sampleDb sampleRefreshToken none none 1000).2.refreshTokens := by
  decide

/-- Claim C3 (amended): in the refresh flow a failed datastore call surfaces
immediately as a 500 Internal error for the calls that are not wrapped —
e.g. the ledger lookup — but the ledger-row deletes are wrapped in
`.catch(() => undefined)`, so their failure is silently ignored and the flow
continues: with a failing rotation delete the flow still answers 200 with
fresh tokens and the old ledger row is left present. -/
theorem C3_amended_fault_behavior :
    (∀ (secret : String) (f : Faults) (db : Db) (tok : RawToken) (ua ip : Option String)
        (now : Nat) (p : Payload) (n : Nat),
        jwtVerify tok secret now = .ok p → p.type = some "refresh" →
        numOfSub p.sub = some (n + 1) → f.lookupRow = true →
        refresh secret f db tok ua ip now = (.err ⟨500, "INTERNAL_SERVER_ERROR"⟩, db)) ∧
    (∀ (secret : String) (db : Db) (tok : RawToken) (ua ip : Option String) (now : Nat)
        (p : Payload) (n : Nat) (stored : RefreshTokenRow) (user : User),
        jwtVerify tok secret now = .ok p → p.type = some "refresh" →
        numOfSub p.sub = some (n + 1) →
        findRefreshTokenByHash db (hashToken tok) = some stored → stored.userId = n + 1 →
        ¬ stored.expiresAt < now → findUserById db (n + 1) = some user →
        user.status = "ACTIVE" →
        (refresh secret faultRotate db tok ua ip now).1.status = 200 ∧
        stored ∈ (refresh secret faultRotate db tok ua ip now).2.refreshTokens) := by
  constructor
  · intro secret f db tok ua ip now p n hver htype hsub hlf
    unfold refresh
    rw [hver]
    simp [htype, hsub, hlf]
  · intro secret db tok ua ip now p n stored user hver htype hsub hrow huid hexp huser hact
    have h := refresh_success secret faultRotate db tok ua ip now p n stored user
      hver htype hsub rfl hrow huid hexp rfl huser hact rfl
    rw [h]
    refine ⟨rfl, ?_⟩
    have hmem : stored ∈ db.refreshTokens := List.mem_of_find?_eq_some hrow
    simp [persistRefreshToken, faultRotate, List.mem_append]
    exact Or.inl hmem

/-- Witness for C3 (amended): with the ledger lookup failing the sample
refresh is answered 500 with the datastore untouched; with the rotation
delete failing it is answered 200 and the old row survives. -/
theorem C3_amended_witness :
    refresh "s" ⟨true, false, false, false, false, false⟩ sampleDb sampleRefreshToken
        none none 1000 = (.err ⟨500, "INTERNAL_SERVER_ERROR"⟩, sampleDb) ∧
    ((refresh "s" faultRotate sampleDb sampleRefreshToken none none 1000).1.status = 200 ∧
      sampleRow ∈
        (refresh "s" faultRotate sampleDb sampleRefreshToken none none 1000).2.refreshTokens) :=
  ⟨C3_amended_fault_behavior.1 "s" ⟨true, false, false, false, false, false⟩ sampleDb
      sampleRefreshToken none none 1000
      ⟨.num 1, some "USER", some "refresh", some 0, some 604800⟩ 0
      (by decide) (by decide) (by decide) (by decide),
   C3_amended_fault_behavior.2 "s" sampleDb sampleRefreshToken none none 1000
      ⟨.num 1, some "USER", some "refresh", some 0, some 604800⟩ 0 sampleRow sampleUser
      (by decide) (by decide) (by decide) (by decide) (by decide) (by decide)
      (by decide) (by decide)⟩

/-- Claim C1: rotation is one-shot.  For a refresh token issued at login, a
first sequential redemption via POST /auth/refresh (owner present and
ACTIVE, token and ledger row unexpired) answers 200 with a fresh pair and
deletes the old ledger row — its digest no longer resolves — and a second
sequential redemption of the same raw token is answered 401 UNAUTHORIZED
because the ledger lookup by digest finds no row. -/
theorem C1_rotation_one_shot (secret : String) (db : Db) (email password : String)
    (ua ip ua1 ip1 ua2 ip2 : Option String) (t0 t1 t2 : Nat) (u : User) (n : Nat)
    (hfind : findUserByEmail db email = some u)
    (hpw : verifyPassword password u.passwordHash = true)
    (hid : u.id = n + 1)
    (hbyid : findUserById db u.id = some u)
    (hact : u.status = "ACTIVE")
    (hfresh : ∀ r ∈ db.refreshTokens,
        r.tokenHash ≠ hashToken (signRefreshToken secret u.id u.role db.nextNonce t0))
    (ht1 : t1 / 1000 < t0 / 1000 + REFRESH_EXPIRES_IN_S)
    (ht2 : t2 / 1000 < t0 / 1000 + REFRESH_EXPIRES_IN_S) :
    (login secret db email password ua ip t0).1 =
      .ok (signAccessToken secret u.id u.role t0)
        (signRefreshToken secret u.id u.role db.nextNonce t0) u ∧
    (refresh secret noFaults (login secret db email password ua ip t0).2
        (signRefreshToken secret u.id u.role db.nextNonce t0) ua1 ip1 t1).1 =
      .ok (signAccessToken secret u.id u.role t1)
        (signRefreshToken secret u.id u.role (db.nextNonce + 1) t1) u ∧
    findRefreshTokenByHash
      (refresh secret noFaults (login secret db email password ua ip t0).2
        (signRefreshToken secret u.id u.role db.nextNonce t0) ua1 ip1 t1).2
      (hashToken (signRefreshToken secret u.id u.role db.nextNonce t0)) = none ∧
    (refresh secret noFaults
        (refresh secret noFaults (login secret db email password ua ip t0).2
          (signRefreshToken secret u.id u.role db.nextNonce t0) ua1 ip1 t1).2
        (signRefreshToken secret u.id u.role db.nextNonce t0) ua2 ip2 t2).1 =
      .err ⟨401, "UNAUTHORIZED"⟩ := by
  have hW : REFRESH_EXPIRES_IN_S = 604800 := rfl
  have hlog := login_success secret db email password ua ip t0 u hfind hpw
  have hout1 : (login secret db email password ua ip t0).1 =
      .ok (signAccessToken secret u.id u.role t0)
        (signRefreshToken secret u.id u.role db.nextNonce t0) u := by
    rw [hlog]
  have hdb1 : (login secret db email password ua ip t0).2 =
      (⟨db.users,
        db.refreshTokens ++
          ([⟨db.nextRowId, u.id, signRefreshToken secret u.id u.role db.nextNonce t0,
            ua, ip, (t0 / 1000 + REFRESH_EXPIRES_IN_S) * 1000⟩] : List RefreshTokenRow),
        db.nextRowId + 1, db.nextNonce + 1⟩ : Db) := by
    rw [hlog, persist_signRefreshToken]
  have hfalse : ∀ r ∈ db.refreshTokens,
      (r.tokenHash == hashToken (signRefreshToken secret u.id u.role db.nextNonce t0)) = false := by
    intro r hr
    exact beq_eq_false_iff_ne.mpr (hfresh r hr)
  have hver1 : jwtVerify (signRefreshToken secret u.id u.role db.nextNonce t0) secret t1 =
      .ok ⟨.num u.id, some u.role, some "refresh", some db.nextNonce,
        some (t0 / 1000 + REFRESH_EXPIRES_IN_S)⟩ :=
    verify_signRefreshToken secret u.id u.role db.nextNonce t0 t1 ht1
  have hver2 : jwtVerify (signRefreshToken secret u.id u.role db.nextNonce t0) secret t2 =
      .ok ⟨.num u.id, some u.role, some "refresh", some db.nextNonce,
        some (t0 / 1000 + REFRESH_EXPIRES_IN_S)⟩ :=
    verify_signRefreshToken secret u.id u.role db.nextNonce t0 t2 ht2
  have hsub1 : numOfSub (SubClaim.num u.id) = some (n + 1) := by
    rw [hid]
    exact rfl
  have hrow1 : findRefreshTokenByHash
      (⟨db.users,
        db.refreshTokens ++
          ([⟨db.nextRowId, u.id, signRefreshToken secret u.id u.role db.nextNonce t0,
            ua, ip, (t0 / 1000 + REFRESH_EXPIRES_IN_S) * 1000⟩] : List RefreshTokenRow),
        db.nextRowId + 1, db.nextNonce + 1⟩ : Db)
      (hashToken (signRefreshToken secret u.id u.role db.nextNonce t0)) =
      some ⟨db.nextRowId, u.id, signRefreshToken secret u.id u.role db.nextNonce t0,
        ua, ip, (t0 / 1000 + REFRESH_EXPIRES_IN_S) * 1000⟩ := by
    show (db.refreshTokens ++
        ([⟨db.nextRowId, u.id, signRefreshToken secret u.id u.role db.nextNonce t0,
          ua, ip, (t0 / 1000 + REFRESH_EXPIRES_IN_S) * 1000⟩] : List RefreshTokenRow)).find?
        (fun r => r.tokenHash == hashToken (signRefreshToken secret u.id u.role db.nextNonce t0)) =
      some ⟨db.nextRowId, u.id, signRefreshToken secret u.id u.role db.nextNonce t0,
        ua, ip, (t0 / 1000 + REFRESH_EXPIRES_IN_S) * 1000⟩
    rw [find?_append_none _ _ _ hfalse]
    simp [hashToken]
  have hexp1 : ¬ ((t0 / 1000 + REFRESH_EXPIRES_IN_S) * 1000 < t1) := by omega
  have huidne : (u.id ≠ n + 1) = False := by simp [hid]
  have huser1 : findUserById
      (⟨db.users,
        db.refreshTokens ++
          ([⟨db.nextRowId, u.id, signRefreshToken secret u.id u.role db.nextNonce t0,
            ua, ip, (t0 / 1000 + REFRESH_EXPIRES_IN_S) * 1000⟩] : List RefreshTokenRow),
        db.nextRowId + 1, db.nextNonce + 1⟩ : Db) (n + 1) = some u := by
    show db.users.find? (fun x => x.id == n + 1) = some u
    rw [← hid]
    exact hbyid
  have hfilter : (db.refreshTokens ++
      ([⟨db.nextRowId, u.id, signRefreshToken secret u.id u.role db.nextNonce t0,
        ua, ip, (t0 / 1000 + REFRESH_EXPIRES_IN_S) * 1000⟩] : List RefreshTokenRow)).filter
      (fun r => !(r.tokenHash == hashToken (signRefreshToken secret u.id u.role db.nextNonce t0))) =
      db.refreshTokens := by
    rw [List.filter_append,
      filter_all_true _ _ (fun r hr => by simp [hfalse r hr])]
    simp [hashToken]
  have hdel : deleteRefreshTokenByHash
      (⟨db.users,
        db.refreshTokens ++
          ([⟨db.nextRowId, u.id, signRefreshToken secret u.id u.role db.nextNonce t0,
            ua, ip, (t0 / 1000 + REFRESH_EXPIRES_IN_S) * 1000⟩] : List RefreshTokenRow),
        db.nextRowId + 1, db.nextNonce + 1⟩ : Db)
      (hashToken (signRefreshToken secret u.id u.role db.nextNonce t0)) =
      (⟨db.users, db.refreshTokens, db.nextRowId + 1, db.nextNonce + 1⟩ : Db) := by
    simp only [deleteRefreshTokenByHash]
    rw [hfilter]
  have hstep2 : refresh secret noFaults
      (⟨db.users,
        db.refreshTokens ++
          ([⟨db.nextRowId, u.id, signRefreshToken secret u.id u.role db.nextNonce t0,
            ua, ip, (t0 / 1000 + REFRESH_EXPIRES_IN_S) * 1000⟩] : List RefreshTokenRow),
        db.nextRowId + 1, db.nextNonce + 1⟩ : Db)
      (signRefreshToken secret u.id u.role db.nextNonce t0) ua1 ip1 t1 =
      (.ok (signAccessToken secret u.id u.role t1)
        (signRefreshToken secret u.id u.role (db.nextNonce + 1) t1) u,
       ⟨db.users,
        db.refreshTokens ++
          ([⟨db.nextRowId + 1, u.id, signRefreshToken secret u.id u.role (db.nextNonce + 1) t1,
            ua1, ip1, (t1 / 1000 + REFRESH_EXPIRES_IN_S) * 1000⟩] : List RefreshTokenRow),
        db.nextRowId + 2, db.nextNonce + 2⟩) := by
    unfold refresh
    rw [hver1]
    simp [noFaults, hsub1, hrow1, huidne, hexp1, huser1, hact, hdel,
      persist_signRefreshToken]
  have hneq : (signRefreshToken secret u.id u.role (db.nextNonce + 1) t1 ==
      hashToken (signRefreshToken secret u.id u.role db.nextNonce t0)) = false := by
    refine beq_eq_false_iff_ne.mpr ?_
    intro hEq
    have hj := congrArg (fun tk => match tk with
      | RawToken.signed p _ => p.jti
      | RawToken.malformed _ => none) hEq
    simp [signRefreshToken, hashToken] at hj
  have hrow2 : findRefreshTokenByHash
      (⟨db.users,
        db.refreshTokens ++
          ([⟨db.nextRowId + 1, u.id, signRefreshToken secret u.id u.role (db.nextNonce + 1) t1,
            ua1, ip1, (t1 / 1000 + REFRESH_EXPIRES_IN_S) * 1000⟩] : List RefreshTokenRow),
        db.nextRowId + 2, db.nextNonce + 2⟩ : Db)
      (hashToken (signRefreshToken secret u.id u.role db.nextNonce t0)) = none := by
    show (db.refreshTokens ++
        ([⟨db.nextRowId + 1, u.id, signRefreshToken secret u.id u.role (db.nextNonce + 1) t1,
          ua1, ip1, (t1 / 1000 + REFRESH_EXPIRES_IN_S) * 1000⟩] : List RefreshTokenRow)).find?
        (fun r => r.tokenHash == hashToken (signRefreshToken secret u.id u.role db.nextNonce t0)) = none
    rw [find?_append_none _ _ _ hfalse]
    simp [List.find?, hneq]
  refine ⟨hout1, ?_, ?_, ?_⟩
  · rw [hdb1, hstep2]
  · rw [hdb1, hstep2]
    exact hrow2
  · rw [hdb1, hstep2]
    rw [refresh_lookup_miss secret noFaults _
      (signRefreshToken secret u.id u.role db.nextNonce t0) ua2 ip2 t2 _ n
      hver2 rfl hsub1 rfl hrow2]
/-- Witness for C1: the sample user logs in at time 0; the issued refresh
token redeems once at time 1000 (old row deleted) and a second redemption at
time 2000 is answered 401 because the digest no longer resolves. -/
theorem C1_witness :
    (login "s" ⟨[sampleUser], [], 1, 0⟩ "user1@example.com" "P@ssw0rd!" none none 0).1 =
      .ok (signAccessToken "s" 1 "USER" 0) (signRefreshToken "s" 1 "USER" 0 0) sampleUser ∧
    (refresh "s" noFaults
        (login "s" ⟨[sampleUser], [], 1, 0⟩ "user1@example.com" "P@ssw0rd!" none none 0).2
        (signRefreshToken "s" 1 "USER" 0 0) none none 1000).1 =
      .ok (signAccessToken "s" 1 "USER" 1000) (signRefreshToken "s" 1 "USER" (0 + 1) 1000)
        sampleUser ∧
    findRefreshTokenByHash
      (refresh "s" noFaults
        (login "s" ⟨[sampleUser], [], 1, 0⟩ "user1@example.com" "P@ssw0rd!" none none 0).2
        (signRefreshToken "s" 1 "USER" 0 0) none none 1000).2
      (hashToken (signRefreshToken "s" 1 "USER" 0 0)) = none ∧
    (refresh "s" noFaults
        (refresh "s" noFaults
          (login "s" ⟨[sampleUser], [], 1, 0⟩ "user1@example.com" "P@ssw0rd!" none none 0).2
          (signRefreshToken "s" 1 "USER" 0 0) none none 1000).2
        (signRefreshToken "s" 1 "USER" 0 0) none none 2000).1 =
      .err ⟨401, "UNAUTHORIZED"⟩ :=
  C1_rotation_one_shot "s" ⟨[sampleUser], [], 1, 0⟩ "user1@example.com" "P@ssw0rd!"
    none none none none none none 0 1000 2000 sampleUser 0
    (by decide) (by decide) (by decide) (by decide) (by decide)
    (by decide) (by decide) (by decide)

end WSERD
